import Mathlib

/-!
Shallow embedding of the RAID tracker dashboard backend (`src/server.js`).

The backend is a Node.js relay: it keeps an in-memory registry
(`state.devices`, a JS `Map`; `state.rfidScans`, a newest-first array capped
at `maxRFIDHistory = 100`; `state.mqttConnections`, a JS `Map`), mutates it
in `handleGPSMessage` / `handleRFIDMessage`, and broadcasts each applied
event to every connected socket.io client.

Modelling conventions:
* JSON field values are `JSVal` (null, number, string, boolean); an absent
  field (`undefined` after destructuring) is `Option.none`.  `JSON.parse`
  cannot produce `undefined` or `NaN` inside a payload, so these four value
  kinds cover every payload the `message` callback can hand the handlers.
* JS numbers are modelled as `ℚ`; the `NaN` produced by coercing a
  non-numeric value is `Option.none` of `Option ℚ`.  String-to-number
  coercion is modelled for integer literals (the only shape the repo's
  documented producers emit); any other string coerces to `NaN`.
* `new Date(ms).toISOString()` throws a `RangeError` exactly when `ms` is
  `NaN` or `|ms| > 8.64e15`; otherwise it returns a string determined by
  `ms`.  No claim depends on the concrete ISO format, so the returned
  string is modelled as a canonical rendering of `ms`.
* `x.toFixed(4)` (used only in the final `console.log`) throws a
  `TypeError` exactly when `x` is not a JS number.
* A JS `Map` is modelled as an insertion-ordered association list;
  `Map.set` overwrites the first matching key in place or appends.
* Each handler returns the new server state, the list of broadcasts it
  emitted (`io.emit`) before any throw, and the exception it threw, if any
  (thrown exceptions are caught and logged by the `message` callback of the
  MQTT client, so they never crash the process).
-/

unseal Rat.mul Rat.add

namespace RaidTracker

/-- A JSON value as produced by `JSON.parse` (objects/arrays do not occur in
the fields the handlers destructure from documented producers). -/
inductive JSVal where
  | null : JSVal
  | num : ℚ → JSVal
  | str : String → JSVal
  | bool : Bool → JSVal
deriving DecidableEq

/-- A possibly-absent field of a parsed payload; `none` is `undefined`. -/
abbrev JField := Option JSVal

/-- The fields destructured from an inbound payload:
`const { dID, uID, msg, lat, lon, dTS } = payload`. -/
structure Payload where
  dID : JField := none
  uID : JField := none
  msg : JField := none
  lat : JField := none
  lon : JField := none
  dTS : JField := none
deriving DecidableEq

/-- JS truthiness of a field value, as tested by `!dID` and `!uID`:
`undefined`, `null`, `0`, the empty string and `false` are falsy. -/
def truthy : JField → Bool
  | none => false
  | some .null => false
  | some (.num q) => decide (q ≠ 0)
  | some (.str s) => decide (s ≠ "")
  | some (.bool b) => b

/-- JS `ToNumber` on a string (used by `dTS * 1000`): whitespace-only
strings coerce to `0`, integer literals to their value, anything else to
`NaN` (`none`).  (Fractional literals also coerce in JS; no documented
producer emits them in `dTS` and no claim depends on them.) -/
def strToNumber (s : String) : Option ℚ :=
  if s.trim = "" then some 0 else (s.trim.toInt?).map fun n => (n : ℚ)

/-- JS `ToNumber` of a field value; `none` is `NaN`. -/
def toNumber : JField → Option ℚ
  | none => none
  | some .null => some 0
  | some (.num q) => some q
  | some (.str s) => strToNumber s
  | some (.bool b) => some (if b then 1 else 0)

/-- `dTS * 1000` under JS numeric coercion (`NaN` propagates). -/
def timesThousand (x : Option ℚ) : Option ℚ := x.map fun q => q * 1000

/-- Largest `|milliseconds|` accepted by a JS `Date`. -/
def maxDateMs : ℚ := 8640000000000000

/-- Models `new Date(ms).toISOString()`: `none` when it throws
(`RangeError: Invalid time value`), i.e. when `ms` is `NaN` or out of
range; otherwise a string determined by `ms`. -/
def dateToISO (ms : Option ℚ) : Option String :=
  match ms with
  | none => none
  | some q => if |q| ≤ maxDateMs then some (toString q) else none

/-- Whether a field value is a JS number, i.e. whether `.toFixed(4)` on it
succeeds rather than throwing a `TypeError`. -/
def isNum : JField → Bool
  | some (.num _) => true
  | _ => false

/-- JS `a || b` specialised to `msg || 'N/A'`. -/
def jsOr (v : JField) (d : JSVal) : JSVal :=
  match v with
  | some w => if truthy (some w) then w else d
  | none => d

/-- `Map.get`: value stored at the first matching key. -/
def mapGet {κ α : Type} [DecidableEq κ] : List (κ × α) → κ → Option α
  | [], _ => none
  | (k', v) :: rest, k => if k' = k then some v else mapGet rest k

/-- `Map.set`: overwrite the first matching key in place, else append
(JS `Map` preserves insertion order and keeps the original position of an
updated key). -/
def mapSet {κ α : Type} [DecidableEq κ] : List (κ × α) → κ → α → List (κ × α)
  | [], k, v => [(k, v)]
  | (k', v') :: rest, k, v =>
      if k' = k then (k, v) :: rest else (k', v') :: mapSet rest k v

/-- `Map.delete`. -/
def mapDelete {κ α : Type} [DecidableEq κ] : List (κ × α) → κ → List (κ × α)
  | [], _ => []
  | (k', v') :: rest, k =>
      if k' = k then rest else (k', v') :: mapDelete rest k

/-- A device record as built by `handleGPSMessage` (fields in assignment
order: `deviceId`, `latitude`, `longitude`, `timestamp`, `lastUpdate`,
`raw`). -/
structure Device where
  deviceId : JSVal
  latitude : JSVal
  longitude : JSVal
  timestamp : JField
  lastUpdate : String
  raw : Payload
deriving DecidableEq

/-- A scan record as built by `handleRFIDMessage`. -/
structure ScanData where
  deviceId : JSVal
  tagUID : JSVal
  message : JSVal
  latitude : JSVal
  longitude : JSVal
  timestamp : JField
  scannedAt : String
  rawPayload : Payload
deriving DecidableEq

/-- A stored MQTT connection record (`state.mqttConnections.set(clientId,
{client, brokerUrl, gpsTopic, rfidTopic, connectedAt})`).  The mqtt.js
client object is modelled by an opaque handle number; `connectedAt` is the
handle of the creation instant. -/
structure MqttConn where
  client : Nat
  brokerUrl : String
  gpsTopic : String
  rfidTopic : String
  connectedAt : Nat
deriving DecidableEq

/-- The configuration destructured from a `connect_mqtt` socket request:
`const { clientId, brokerUrl, gpsTopic, rfidTopic } = config`. -/
structure MqttConfig where
  clientId : JSVal
  brokerUrl : String
  gpsTopic : String
  rfidTopic : String
deriving DecidableEq

/-- The server's mutable `state`, plus bookkeeping for which mqtt.js client
objects have been created and not closed (`liveClients`), with `nextClient`
a freshness counter for client handles. -/
structure ServerState where
  devices : List (JSVal × Device) := []
  rfidScans : List ScanData := []
  mqttConnections : List (JSVal × MqttConn) := []
  liveClients : List Nat := []
  nextClient : Nat := 0
deriving DecidableEq

/-- `state.maxRFIDHistory`. -/
def maxRFIDHistory : Nat := 100

/-- The initial server state. -/
def initState : ServerState := {}

/-- An exception thrown (and caught upstream) during message handling. -/
inductive JSError where
  | rangeError : JSError
  | typeError : JSError
deriving DecidableEq

/-- A broadcast emitted to every connected socket (`io.emit`). -/
inductive Broadcast where
  | gpsUpdate (deviceId latitude longitude : JSVal) (timestamp : JField)
      (lastUpdate : String)
  | rfidScan (scan : ScanData)
deriving DecidableEq

/-- The validation test of `handleGPSMessage`:
`if (!dID || lat === undefined || lon === undefined) return;`. -/
def gpsRejected (p : Payload) : Bool :=
  !(truthy p.dID) || p.lat.isNone || p.lon.isNone

/-- The validation test of `handleRFIDMessage`:
`if (!dID || !uID || lat === undefined || lon === undefined) return;`. -/
def rfidRejected (p : Payload) : Bool :=
  !(truthy p.dID) || !(truthy p.uID) || p.lat.isNone || p.lon.isNone

/-- The fully-assigned device record for a payload (all six fields are
reassigned on every accepted GPS event, so the result does not depend on
any previously stored record). -/
def deviceOf (p : Payload) (iso : String) : Device :=
  { deviceId := p.dID.getD .null
    latitude := p.lat.getD .null
    longitude := p.lon.getD .null
    timestamp := p.dTS
    lastUpdate := iso
    raw := p }

/-- `handleGPSMessage(payload)`: validate; look up or create the device
object; assign `deviceId`, `latitude`, `longitude`, `timestamp`; compute
`new Date(dTS * 1000).toISOString()` — if that throws, an existing (shared,
mutated-in-place) device record keeps its old `lastUpdate`/`raw` but has
already received the new position fields, while a fresh `{}` object is
discarded; otherwise finish the record, `Map.set` it, broadcast
`gps_update`, and finally `lat.toFixed(4)`/`lon.toFixed(4)` throw a
`TypeError` when a coordinate is not a number. -/
def handleGPSMessage (p : Payload) (s : ServerState) :
    ServerState × List Broadcast × Option JSError :=
  if gpsRejected p then (s, [], none)
  else
    let dID := p.dID.getD .null
    match dateToISO (timesThousand (toNumber p.dTS)) with
    | none =>
      match mapGet s.devices dID with
      | none => (s, [], some .rangeError)
      | some d =>
        let d' := { d with
          deviceId := dID
          latitude := p.lat.getD .null
          longitude := p.lon.getD .null
          timestamp := p.dTS }
        ({ s with devices := mapSet s.devices dID d' }, [], some .rangeError)
    | some iso =>
      let dev := deviceOf p iso
      let s' := { s with devices := mapSet s.devices dID dev }
      let b := Broadcast.gpsUpdate dev.deviceId dev.latitude dev.longitude
        p.dTS iso
      if isNum p.lat && isNum p.lon then (s', [b], none)
      else (s', [b], some .typeError)

/-- The scan record built by `handleRFIDMessage` for a payload. -/
def scanOf (p : Payload) (iso : String) : ScanData :=
  { deviceId := p.dID.getD .null
    tagUID := p.uID.getD .null
    message := jsOr p.msg (.str "N/A")
    latitude := p.lat.getD .null
    longitude := p.lon.getD .null
    timestamp := p.dTS
    scannedAt := iso
    rawPayload := p }

/-- `state.rfidScans.unshift(scanData); if (length > maxRFIDHistory) pop()`. -/
def pushScan (scans : List ScanData) (sc : ScanData) : List ScanData :=
  if (sc :: scans).length > maxRFIDHistory then (sc :: scans).dropLast
  else sc :: scans

/-- `handleRFIDMessage(payload)`: validate; build `scanData` (whose
`scannedAt` computation throws before any mutation when `dTS * 1000` is not
a valid date); prepend it to the capped scan history; broadcast
`rfid_scan`; finally `toFixed` throws a `TypeError` on a non-numeric
coordinate. -/
def handleRFIDMessage (p : Payload) (s : ServerState) :
    ServerState × List Broadcast × Option JSError :=
  if rfidRejected p then (s, [], none)
  else
    match dateToISO (timesThousand (toNumber p.dTS)) with
    | none => (s, [], some .rangeError)
    | some iso =>
      let sc := scanOf p iso
      let s' := { s with rfidScans := pushScan s.rfidScans sc }
      if isNum p.lat && isNum p.lon then (s', [.rfidScan sc], none)
      else (s', [.rfidScan sc], some .typeError)

/-- The `connect_mqtt` socket handler's state effect: create a fresh
mqtt.js client (never ending any existing one) and store the connection
record under `clientId` via `Map.set`. -/
def connectMqtt (cfg : MqttConfig) (s : ServerState) : ServerState :=
  let h := s.nextClient
  { s with
    liveClients := s.liveClients ++ [h]
    mqttConnections := mapSet s.mqttConnections cfg.clientId
      { client := h
        brokerUrl := cfg.brokerUrl
        gpsTopic := cfg.gpsTopic
        rfidTopic := cfg.rfidTopic
        connectedAt := h }
    nextClient := h + 1 }

/-- The `close` listener of a client created for `clientId`: the transport
connection is down (the handle stops being live) and
`state.mqttConnections.delete(clientId)` runs. -/
def closeMqtt (clientId : JSVal) (handle : Nat) (s : ServerState) :
    ServerState :=
  { s with
    liveClients := s.liveClients.filter fun h => decide (h ≠ handle)
    mqttConnections := mapDelete s.mqttConnections clientId }

/-- `GET /api/stats` response, as a JSON object (key-value list, in the
order the object literal writes them); `nowIso` is
`new Date().toISOString()` at request time. -/
def apiStats (s : ServerState) (nowIso : String) : List (String × JSVal) :=
  [ ("success", .bool true)
  , ("activeDevices", .num s.devices.length)
  , ("totalScans", .num s.rfidScans.length)
  , ("mqttConnections", .num s.mqttConnections.length)
  , ("timestamp", .str nowIso) ]

/-- Whether a numeric value (under JS coercion) is a valid `Date` argument. -/
def inDateRange (x : Option ℚ) : Bool :=
  match x with
  | none => false
  | some q => decide (|q| ≤ maxDateMs)

/-- A canonical valid RFID scan payload per the documented schema
(`{dID, uID, msg?, lat: number, lon: number, dTS: int}` with `dTS` a valid
Unix-seconds timestamp): both identifiers truthy, numeric coordinates, and
a numeric timestamp in `Date` range, so the handler accepts it, appends
exactly one scan and throws nothing. -/
def validScanPayload (p : Payload) : Bool :=
  truthy p.dID && truthy p.uID && isNum p.lat && isNum p.lon &&
    isNum p.dTS && inDateRange (timesThousand (toNumber p.dTS))

/-- A canonical valid GPS payload, analogously. -/
def validGPSPayload (p : Payload) : Bool :=
  truthy p.dID && isNum p.lat && isNum p.lon &&
    isNum p.dTS && inDateRange (timesThousand (toNumber p.dTS))

/-- The `Map` key a GPS/RFID payload is stored under (`dID`; truthiness of
`dID` guarantees the default is never used on an accepted payload). -/
def keyOf (p : Payload) : JSVal := p.dID.getD .null

/-- The `toISOString` result for a payload's `dTS` (defined whenever the
payload does not make the handler throw). -/
def isoOf (p : Payload) : String :=
  (dateToISO (timesThousand (toNumber p.dTS))).getD ""

/-- The device record an accepted, non-throwing GPS payload stores. -/
def gpsDeviceOf (p : Payload) : Device := deviceOf p (isoOf p)

/-- The scan record an accepted, non-throwing RFID payload stores. -/
def rfidScanOf (p : Payload) : ScanData := scanOf p (isoOf p)

/-- Run a sequence of GPS payloads through `handleGPSMessage`. -/
def runGPS (s : ServerState) (ps : List Payload) : ServerState :=
  ps.foldl (fun s p => (handleGPSMessage p s).1) s

/-- Run a sequence of RFID payloads through `handleRFIDMessage`. -/
def runRFID (s : ServerState) (ps : List Payload) : ServerState :=
  ps.foldl (fun s p => (handleRFIDMessage p s).1) s

/-- A message delivered to one viewer socket: the `initial_state` snapshot
sent on connection (devices in `Map` insertion order, scans newest-first),
or one rebroadcast event. -/
inductive Msg where
  | initial (devices : List Device) (scans : List ScanData)
  | push (b : Broadcast)
deriving DecidableEq

/-- An event processed by the Node event loop (serialised one at a time):
a socket.io viewer connection, an inbound bus message on the GPS or RFID
topic, a `connect_mqtt` request, or a transport-level close. -/
inductive Event where
  | viewerConnect (vid : Nat)
  | busGPS (p : Payload)
  | busRFID (p : Payload)
  | busConnect (cfg : MqttConfig)
  | busClose (clientId : JSVal) (handle : Nat)
deriving DecidableEq

/-- Server-state effect of one event. -/
def serverStep (s : ServerState) (e : Event) : ServerState :=
  match e with
  | .viewerConnect _ => s
  | .busGPS p => (handleGPSMessage p s).1
  | .busRFID p => (handleRFIDMessage p s).1
  | .busConnect cfg => connectMqtt cfg s
  | .busClose cid h => closeMqtt cid h s

/-- Run a sequence of events on the server state. -/
def runServer (s : ServerState) (es : List Event) : ServerState :=
  es.foldl serverStep s

/-- The broadcasts `io.emit` sends to every connected socket while
processing one event in state `s`. -/
def stepOutputs (s : ServerState) (e : Event) : List Broadcast :=
  match e with
  | .busGPS p => (handleGPSMessage p s).2.1
  | .busRFID p => (handleRFIDMessage p s).2.1
  | _ => []

/-- All broadcasts emitted while processing a sequence of events. -/
def runOutputs (s : ServerState) : List Event → List Broadcast
  | [] => []
  | e :: es => stepOutputs s e ++ runOutputs (serverStep s e) es

/-- The whole system: the server state plus, for each connected viewer
socket (keyed by its id), the messages it has received, oldest first. -/
structure SysState where
  server : ServerState := {}
  viewers : List (Nat × List Msg) := []
deriving DecidableEq

/-- Append the same broadcasts to every connected viewer's stream
(`io.emit` fans out to all sockets). -/
def deliverAll (vs : List (Nat × List Msg)) (bs : List Broadcast) :
    List (Nat × List Msg) :=
  vs.map fun v => (v.1, v.2 ++ bs.map Msg.push)

/-- One event-loop step of the whole system.  A connecting viewer is
registered and immediately receives the `initial_state` snapshot
(`Array.from(state.devices.values())` and `state.rfidScans`); a bus
message mutates the server state and fans its broadcasts out to every
registered viewer. -/
def sysStep (σ : SysState) (e : Event) : SysState :=
  match e with
  | .viewerConnect vid =>
      { σ with viewers := σ.viewers ++
          [(vid, [Msg.initial (σ.server.devices.map Prod.snd)
                    σ.server.rfidScans])] }
  | .busGPS p =>
      { server := (handleGPSMessage p σ.server).1
        viewers := deliverAll σ.viewers (handleGPSMessage p σ.server).2.1 }
  | .busRFID p =>
      { server := (handleRFIDMessage p σ.server).1
        viewers := deliverAll σ.viewers (handleRFIDMessage p σ.server).2.1 }
  | .busConnect cfg => { σ with server := connectMqtt cfg σ.server }
  | .busClose cid h => { σ with server := closeMqtt cid h σ.server }

/-- Run a sequence of events on the whole system. -/
def sysRun (σ : SysState) (es : List Event) : SysState := es.foldl sysStep σ

/-- The empty initial system. -/
def sys0 : SysState := {}

/-- Whether an event is the connection of viewer `v`. -/
def connectsViewer (v : Nat) : Event → Bool
  | .viewerConnect w => decide (w = v)
  | _ => false

/-- Whether an event is a bus-connection lifecycle operation. -/
def isLifecycleEvent : Event → Bool
  | .busConnect _ => true
  | .busClose _ _ => true
  | _ => false

/-- 101 distinct valid scan payloads (tags `1..101`), for exercising the
capacity bound. -/
def c1Payloads : List Payload :=
  (List.range 101).map fun i =>
    { dID := some (.str "d"), uID := some (.num (i + 1)),
      lat := some (.num 0), lon := some (.num 0), dTS := some (.num 0) }

/-- Three valid GPS payloads: two devices, with a second event for
`d1` carrying an older `dTS` than the first. -/
def c2Payloads : List Payload :=
  [ { dID := some (.str "d1"), lat := some (.num 1), lon := some (.num 2),
      dTS := some (.num 100) }
  , { dID := some (.str "d2"), lat := some (.num 3), lon := some (.num 4),
      dTS := some (.num 200) }
  , { dID := some (.str "d1"), lat := some (.num 5), lon := some (.num 6),
      dTS := some (.num 50) } ]

/-- A GPS payload whose latitude is present but a (non-numeric) string. -/
def nonNumericLatPayload : Payload :=
  { dID := some (.str "dev"), lat := some (.str "oops"),
    lon := some (.num 0), dTS := some (.num 0) }

/-- A GPS payload that is valid except that `dTS` is absent. -/
def gpsNoTimestamp : Payload :=
  { dID := some (.str "device_001"), lat := some (.num 12),
    lon := some (.num 77) }

/-- An RFID payload that is valid except that `dTS` is absent. -/
def rfidNoTimestamp : Payload :=
  { dID := some (.str "device_001"), uID := some (.str "tag_001"),
    lat := some (.num 12), lon := some (.num 77) }

/-- A `connect_mqtt` request for client `alpha`. -/
def cfgA : MqttConfig :=
  { clientId := .str "alpha", brokerUrl := "mqtt://broker1:1883",
    gpsTopic := "gps", rfidTopic := "rfid" }

/-- A `connect_mqtt` request for client `beta`, naming a different broker. -/
def cfgB : MqttConfig :=
  { clientId := .str "beta", brokerUrl := "mqtt://broker2:1883",
    gpsTopic := "gps", rfidTopic := "rfid" }

/-- A valid RFID payload for the viewer-trace witness. -/
def rfidSample : Payload :=
  { dID := some (.str "d1"), uID := some (.str "tag_9"),
    msg := some (.str "hello"), lat := some (.num 7), lon := some (.num 8),
    dTS := some (.num 300) }

/-- A valid GPS payload for the viewer-trace witness. -/
def gpsSample : Payload :=
  { dID := some (.str "d1"), lat := some (.num 1),
    lon := some (.num 2), dTS := some (.num 100) }

/-- Events applied before the witness viewer connects: a bus connection
and one valid GPS event. -/
def viewerTr1 : List Event :=
  [Event.busConnect cfgA, Event.busGPS gpsSample]

/-- Events applied after the witness viewer connects: one valid RFID event
and one rejected GPS event. -/
def viewerTr2 : List Event :=
  [Event.busRFID rfidSample, Event.busGPS ({ dID := none } : Payload)]

end RaidTracker

namespace RaidTracker

theorem mapGet_mapSet {κ α : Type} [DecidableEq κ] (m : List (κ × α))
    (k k' : κ) (v : α) :
    mapGet (mapSet m k v) k' = if k = k' then some v else mapGet m k' := by
  induction m with
  | nil => simp [mapSet, mapGet]
  | cons hd tl ih =>
    obtain ⟨a, b⟩ := hd
    by_cases ha : a = k
    · subst ha
      by_cases hk : a = k' <;> simp [mapSet, mapGet, hk]
    · by_cases hk : a = k'
      · subst hk
        have hk2 : ¬ k = a := fun h => ha h.symm
        simp [mapSet, mapGet, ha, hk2]
      · simp [mapSet, mapGet, ha, hk, ih]

theorem mapGet_append {κ α : Type} [DecidableEq κ] (a b : List (κ × α))
    (k : κ) :
    mapGet (a ++ b) k =
      match mapGet a k with
      | some v => some v
      | none => mapGet b k := by
  induction a with
  | nil => simp [mapGet]
  | cons hd tl ih =>
    obtain ⟨a₀, v₀⟩ := hd
    by_cases hk : a₀ = k <;> simp [mapGet, hk, ih]

/-- C10: Applying an RFID scan event never modifies the device map:
`handleRFIDMessage` appends to the scan log and broadcasts but leaves
every stored device record (including the scanning device's position)
unchanged, on every input payload and state. -/
theorem rfid_never_touches_devices (p : Payload) (s : ServerState) :
    (handleRFIDMessage p s).1.devices = s.devices := by
  unfold handleRFIDMessage
  split
  · rfl
  · split
    · rfl
    · split <;> rfl

theorem gpsRejected_iff (p : Payload) :
    gpsRejected p = true ↔
      truthy p.dID = false ∨ p.lat = none ∨ p.lon = none := by
  simp [gpsRejected, Option.isNone_iff_eq_none, or_assoc]

theorem rfidRejected_iff (p : Payload) :
    rfidRejected p = true ↔
      truthy p.dID = false ∨ truthy p.uID = false ∨
        p.lat = none ∨ p.lon = none := by
  simp [rfidRejected, Option.isNone_iff_eq_none, or_assoc]

theorem handleGPS_reject (p : Payload) (s : ServerState)
    (h : gpsRejected p = true) : handleGPSMessage p s = (s, [], none) := by
  simp [handleGPSMessage, h]

theorem handleRFID_reject (p : Payload) (s : ServerState)
    (h : rfidRejected p = true) : handleRFIDMessage p s = (s, [], none) := by
  simp [handleRFIDMessage, h]

theorem handleGPS_accept_ne (p : Payload) (s : ServerState)
    (h : gpsRejected p = false) : handleGPSMessage p s ≠ (s, [], none) := by
  unfold handleGPSMessage
  rw [h]
  simp only [Bool.false_eq_true, if_false]
  split
  · split <;> simp
  · split <;> simp

theorem handleRFID_accept_ne (p : Payload) (s : ServerState)
    (h : rfidRejected p = false) : handleRFIDMessage p s ≠ (s, [], none) := by
  unfold handleRFIDMessage
  rw [h]
  simp only [Bool.false_eq_true, if_false]
  split
  · simp
  · split <;> simp

/-- C9: The validator's accept/reject decision is a truthiness/undefined
check, not a type check: a payload is dropped unprocessed (state, emissions
and exceptions all trivial) exactly when `dID` is falsy (absent, null, `0`,
empty string or `false`) — plus, for RFID, `uID` falsy — or a coordinate is
exactly `undefined`; in particular zero coordinates and present-but-null or
non-numeric coordinates pass validation. -/
theorem validator_truthiness_characterisation (p : Payload) (s : ServerState) :
    (handleGPSMessage p s = (s, [], none) ↔
      truthy p.dID = false ∨ p.lat = none ∨ p.lon = none) ∧
    (handleRFIDMessage p s = (s, [], none) ↔
      truthy p.dID = false ∨ truthy p.uID = false ∨
        p.lat = none ∨ p.lon = none) := by
  constructor
  · rw [← gpsRejected_iff]
    constructor
    · intro h
      by_cases hb : gpsRejected p = true
      · exact hb
      · exact absurd h (handleGPS_accept_ne p s (by simpa using hb))
    · exact handleGPS_reject p s
  · rw [← rfidRejected_iff]
    constructor
    · intro h
      by_cases hb : rfidRejected p = true
      · exact hb
      · exact absurd h (handleRFID_accept_ne p s (by simpa using hb))
    · exact handleRFID_reject p s

/-- C3 counterexample: the GPS payload `{dID:"dev", lat:"oops", lon:0,
dTS:0}` has a present but non-numeric coordinate, yet processing it grows
the device count from 0 to 1 (and then throws a `TypeError`), so it is not
dropped with the registry unchanged. -/
theorem malformed_payload_counterexample :
    initState.devices.length = 0 ∧
    (handleGPSMessage nonNumericLatPayload initState).1.devices.length = 1 ∧
    (handleGPSMessage nonNumericLatPayload initState).2.2 =
      some .typeError := by decide

/-- C3 (amended): payloads with a falsy `dID` (falsy `uID` for RFID) or a
coordinate that is exactly `undefined` are dropped at the validation check
with no state change, no emission and no exception; a present-but-non-
numeric coordinate, however, passes validation and does mutate the
registry before throwing. -/
theorem missing_fields_leave_state_unchanged (p : Payload) (s : ServerState) :
    (truthy p.dID = false ∨ p.lat = none ∨ p.lon = none →
      handleGPSMessage p s = (s, [], none)) ∧
    (truthy p.dID = false ∨ truthy p.uID = false ∨
        p.lat = none ∨ p.lon = none →
      handleRFIDMessage p s = (s, [], none)) :=
  ⟨fun h => handleGPS_reject p s ((gpsRejected_iff p).mpr h),
   fun h => handleRFID_reject p s ((rfidRejected_iff p).mpr h)⟩

theorem missing_fields_leave_state_unchanged_witness :
    handleGPSMessage { dID := some (.str "d") } initState =
      (initState, [], none) ∧
    handleRFIDMessage
        { dID := some (.str "d"), lat := some (.num 1),
          lon := some (.num 2) } initState =
      (initState, [], none) :=
  ⟨(missing_fields_leave_state_unchanged _ _).1 (Or.inr (Or.inl rfl)),
   (missing_fields_leave_state_unchanged _ _).2
     (Or.inr (Or.inl (by decide)))⟩

/-- C5: evaluating the handlers at an otherwise-valid payload with `dTS`
absent shows the code does not default the timestamp to current server
time: `new Date(undefined * 1000).toISOString()` throws a `RangeError`
(caught and logged by the message callback), and nothing is stored at all
— contradicting the repository's own reference handlers (README.md lines
473 and 503), which default via
`payload.dTS || Math.floor(Date.now() / 1000)`. -/
theorem missing_dTS_throws_instead_of_defaulting :
    handleGPSMessage gpsNoTimestamp initState =
      (initState, [], some .rangeError) ∧
    handleRFIDMessage rfidNoTimestamp initState =
      (initState, [], some .rangeError) := by decide

/-- C4 counterexample: two `connect_mqtt` requests (clients `alpha` then
`beta`) reach a state with two simultaneously live upstream clients and
two stored connections — the first connection is never torn down. -/
theorem two_live_connections_counterexample :
    (connectMqtt cfgB (connectMqtt cfgA initState)).liveClients = [0, 1] ∧
    (connectMqtt cfgB (connectMqtt cfgA initState)).mqttConnections.length
      = 2 := by decide

/-- C4 (amended): processing a `connect_mqtt` request never tears down any
existing connection: every previously live client stays live, one fresh
client is added, and the request only overwrites the `mqttConnections`
entry for its own `clientId` — so connections with distinct client ids
coexist. -/
theorem connect_never_tears_down (cfg : MqttConfig) (s : ServerState) :
    (connectMqtt cfg s).liveClients = s.liveClients ++ [s.nextClient] ∧
    mapGet (connectMqtt cfg s).mqttConnections cfg.clientId =
      some { client := s.nextClient, brokerUrl := cfg.brokerUrl,
             gpsTopic := cfg.gpsTopic, rfidTopic := cfg.rfidTopic,
             connectedAt := s.nextClient } := by
  refine ⟨rfl, ?_⟩
  rw [show (connectMqtt cfg s).mqttConnections =
        mapSet s.mqttConnections cfg.clientId
          { client := s.nextClient, brokerUrl := cfg.brokerUrl,
            gpsTopic := cfg.gpsTopic, rfidTopic := cfg.rfidTopic,
            connectedAt := s.nextClient } from rfl]
  rw [mapGet_mapSet]
  simp

/-- C8 counterexample: the `/api/stats` response contains no `busStatus`
field at all (its keys are `success`, `activeDevices`, `totalScans`,
`mqttConnections`, `timestamp`), already in the initial state. -/
theorem stats_no_busStatus_counterexample :
    mapGet (apiStats initState "2025-12-01T00:00:00.000Z") "busStatus" =
      none ∧
    mapGet (apiStats initState "2025-12-01T00:00:00.000Z") "activeDevices" =
      some (.num 0) := by decide

/-- C8 (amended): in every state the stats query returns `activeDevices`
equal to the device map's size, `totalScans` equal to the scan log's
length, the number of stored bus connections under `mqttConnections` (not
a `busStatus` status field, which is absent), and the current server time
under `timestamp`. -/
theorem stats_fields (s : ServerState) (nowIso : String) :
    mapGet (apiStats s nowIso) "activeDevices" =
      some (.num s.devices.length) ∧
    mapGet (apiStats s nowIso) "totalScans" =
      some (.num s.rfidScans.length) ∧
    mapGet (apiStats s nowIso) "mqttConnections" =
      some (.num s.mqttConnections.length) ∧
    mapGet (apiStats s nowIso) "timestamp" = some (.str nowIso) ∧
    mapGet (apiStats s nowIso) "busStatus" = none := by
  refine ⟨?_, ?_, ?_, ?_, ?_⟩ <;> rfl

theorem isNum_elim {v : JField} (h : isNum v = true) :
    ∃ q : ℚ, v = some (.num q) := by
  cases v with
  | none => simp [isNum] at h
  | some w =>
    cases w with
    | num q => exact ⟨q, rfl⟩
    | null => simp [isNum] at h
    | str s => simp [isNum] at h
    | bool b => simp [isNum] at h

theorem take_append_take {α : Type} (A B : List α) (n : Nat) :
    (A ++ B.take n).take n = (A ++ B).take n := by
  rw [List.take_append_eq_append_take, List.take_append_eq_append_take,
    List.take_take, min_eq_left (Nat.sub_le n A.length)]

theorem pushScan_eq_take (scans : List ScanData) (sc : ScanData)
    (h : scans.length ≤ 100) :
    pushScan scans sc = (sc :: scans).take 100 := by
  unfold pushScan maxRFIDHistory
  split
  · next hl =>
    rw [List.dropLast_eq_take]
    congr 1
    simp only [List.length_cons]
    simp only [List.length_cons] at hl
    omega
  · next hl =>
    exact (List.take_of_length_le
      (by simp only [List.length_cons] at hl ⊢; omega)).symm

theorem validScan_accepts {p : Payload} (hv : validScanPayload p = true) :
    rfidRejected p = false ∧
    dateToISO (timesThousand (toNumber p.dTS)) = some (isoOf p) ∧
    (isNum p.lat && isNum p.lon) = true := by
  have h := hv
  simp only [validScanPayload, Bool.and_eq_true] at h
  obtain ⟨⟨⟨⟨⟨h1, h2⟩, h3⟩, h4⟩, h5⟩, h6⟩ := h
  obtain ⟨a, hlat⟩ := isNum_elim h3
  obtain ⟨b, hlon⟩ := isNum_elim h4
  obtain ⟨t, hts⟩ := isNum_elim h5
  refine ⟨by simp [rfidRejected, h1, h2, hlat, hlon], ?_, by simp [h3, h4]⟩
  have hc : |t * 1000| ≤ maxDateMs := by
    rw [hts] at h6
    simpa [inDateRange, timesThousand, toNumber] using h6
  unfold isoOf
  rw [hts]
  simp [dateToISO, timesThousand, toNumber, hc]

theorem handleRFID_valid (p : Payload) (s : ServerState)
    (hv : validScanPayload p = true) :
    handleRFIDMessage p s =
      ({ s with rfidScans := pushScan s.rfidScans (rfidScanOf p) },
        [Broadcast.rfidScan (rfidScanOf p)], none) := by
  obtain ⟨hrej, hiso, hnum⟩ := validScan_accepts hv
  unfold handleRFIDMessage
  rw [hrej, hiso]
  simp [hnum, rfidScanOf]

theorem runRFID_rfidScans (ps : List Payload) (s : ServerState)
    (hv : ∀ p ∈ ps, validScanPayload p = true)
    (hs : s.rfidScans.length ≤ 100) :
    (runRFID s ps).rfidScans =
      ((ps.map rfidScanOf).reverse ++ s.rfidScans).take 100 := by
  induction ps generalizing s with
  | nil =>
    simp only [runRFID, List.foldl_nil, List.map_nil, List.reverse_nil,
      List.nil_append]
    exact (List.take_of_length_le hs).symm
  | cons p rest ih =>
    have hp := hv p (List.mem_cons_self p rest)
    have hrest : ∀ q ∈ rest, validScanPayload q = true :=
      fun q hq => hv q (List.mem_cons_of_mem p hq)
    have hstep : runRFID s (p :: rest) =
        runRFID { s with rfidScans := pushScan s.rfidScans (rfidScanOf p) }
          rest := by
      simp [runRFID, handleRFID_valid p s hp]
    have hlen1 : (pushScan s.rfidScans (rfidScanOf p)).length ≤ 100 := by
      rw [pushScan_eq_take s.rfidScans (rfidScanOf p) hs, List.length_take]
      omega
    rw [hstep, ih _ hrest hlen1]
    show ((rest.map rfidScanOf).reverse ++
        pushScan s.rfidScans (rfidScanOf p)).take 100 = _
    rw [pushScan_eq_take s.rfidScans (rfidScanOf p) hs, take_append_take]
    simp [List.append_assoc]

/-- C1: For every sequence of more than `H = maxRFIDHistory = 100` valid
RFID scan events, the scan log has length exactly 100 and equals the 100
most-recently-applied scan records in newest-first order (the reversal of
the applied sequence, truncated at 100) — each insertion past capacity
having evicted the oldest-inserted (tail) entry. -/
theorem scanLog_capped_newest_first (ps : List Payload)
    (hv : ∀ p ∈ ps, validScanPayload p = true) (hlen : 100 < ps.length) :
    (runRFID initState ps).rfidScans.length = 100 ∧
    (runRFID initState ps).rfidScans =
      ((ps.map rfidScanOf).reverse).take 100 := by
  have h2 : (runRFID initState ps).rfidScans =
      ((ps.map rfidScanOf).reverse).take 100 := by
    simpa [initState] using
      runRFID_rfidScans ps initState hv (by simp [initState])
  refine ⟨?_, h2⟩
  rw [h2, List.length_take, List.length_reverse, List.length_map]
  omega

theorem scanLog_capped_newest_first_witness :
    (runRFID initState c1Payloads).rfidScans.length = 100 :=
  (scanLog_capped_newest_first c1Payloads (by decide) (by decide)).1

theorem validGPS_accepts {p : Payload} (hv : validGPSPayload p = true) :
    gpsRejected p = false ∧
    dateToISO (timesThousand (toNumber p.dTS)) = some (isoOf p) ∧
    (isNum p.lat && isNum p.lon) = true := by
  have h := hv
  simp only [validGPSPayload, Bool.and_eq_true] at h
  obtain ⟨⟨⟨⟨h1, h3⟩, h4⟩, h5⟩, h6⟩ := h
  obtain ⟨a, hlat⟩ := isNum_elim h3
  obtain ⟨b, hlon⟩ := isNum_elim h4
  obtain ⟨t, hts⟩ := isNum_elim h5
  refine ⟨by simp [gpsRejected, h1, hlat, hlon], ?_, by simp [h3, h4]⟩
  have hc : |t * 1000| ≤ maxDateMs := by
    rw [hts] at h6
    simpa [inDateRange, timesThousand, toNumber] using h6
  unfold isoOf
  rw [hts]
  simp [dateToISO, timesThousand, toNumber, hc]

theorem handleGPS_valid (p : Payload) (s : ServerState)
    (hv : validGPSPayload p = true) :
    (handleGPSMessage p s).1 =
      { s with devices := mapSet s.devices (keyOf p) (gpsDeviceOf p) } := by
  obtain ⟨hrej, hiso, hnum⟩ := validGPS_accepts hv
  unfold handleGPSMessage
  rw [hrej, hiso]
  simp [hnum, gpsDeviceOf, keyOf]

theorem length_mapSet {κ α : Type} [DecidableEq κ] (m : List (κ × α))
    (k : κ) (v : α) :
    (mapSet m k v).length =
      if (mapGet m k).isSome then m.length else m.length + 1 := by
  induction m with
  | nil => simp [mapSet, mapGet]
  | cons hd tl ih =>
    obtain ⟨a, b⟩ := hd
    by_cases ha : a = k
    · simp [mapSet, mapGet, ha]
    · by_cases hm : (mapGet tl k).isSome <;>
        simp [mapSet, mapGet, ha, ih, hm]

/-- C2: For every sequence of valid GPS events applied from the initial
state, the device map's size equals the number of distinct `dID` keys
seen, and the record stored under any key equals exactly the device record
of the most-recently-applied event with that key — last-write-wins by
arrival order, irrespective of the events' `dTS` values (which the update
never consults). -/
theorem gps_registry_last_write_wins (ps : List Payload)
    (hv : ∀ p ∈ ps, validGPSPayload p = true) :
    (runGPS initState ps).devices.length = (ps.map keyOf).toFinset.card ∧
    ∀ k : JSVal, mapGet (runGPS initState ps).devices k =
      (ps.reverse.find? fun p => decide (keyOf p = k)).map gpsDeviceOf := by
  induction ps using List.reverseRecOn with
  | nil => exact ⟨rfl, fun k => rfl⟩
  | append_singleton l a ih =>
    have ha : validGPSPayload a = true := hv a (by simp)
    have hl : ∀ p ∈ l, validGPSPayload p = true :=
      fun p hp => hv p (by simp [hp])
    obtain ⟨ihlen, ihget⟩ := ih hl
    have hdev : (runGPS initState (l ++ [a])).devices =
        mapSet (runGPS initState l).devices (keyOf a) (gpsDeviceOf a) := by
      rw [show runGPS initState (l ++ [a]) =
          (handleGPSMessage a (runGPS initState l)).1 by
        simp [runGPS, List.foldl_append]]
      rw [handleGPS_valid a _ ha]
    have hrev : (l ++ [a]).reverse = a :: l.reverse := by simp
    have hmem : (mapGet (runGPS initState l).devices (keyOf a)).isSome ↔
        keyOf a ∈ (l.map keyOf).toFinset := by
      rw [ihget (keyOf a)]
      simp [List.find?_isSome, List.mem_reverse]
    have hset : ((l ++ [a]).map keyOf).toFinset =
        insert (keyOf a) (l.map keyOf).toFinset := by
      ext x
      simp [or_comm]
    constructor
    · rw [hdev, length_mapSet, ihlen, hset]
      by_cases hc : keyOf a ∈ (l.map keyOf).toFinset
      · rw [if_pos (hmem.mpr hc), Finset.card_insert_of_mem hc]
      · rw [if_neg (fun hs => hc (hmem.mp hs)),
          Finset.card_insert_of_not_mem hc]
    · intro k
      rw [hdev, mapGet_mapSet, hrev]
      by_cases hk : keyOf a = k
      · rw [if_pos hk]
        simp [List.find?, hk]
      · rw [if_neg hk, ihget k]
        simp [List.find?, hk]

theorem gps_registry_last_write_wins_witness :
    (runGPS initState c2Payloads).devices.length =
      (c2Payloads.map keyOf).toFinset.card ∧
    mapGet (runGPS initState c2Payloads).devices (.str "d1") =
      (c2Payloads.reverse.find? fun p =>
        decide (keyOf p = .str "d1")).map gpsDeviceOf :=
  ⟨(gps_registry_last_write_wins c2Payloads (by decide)).1,
   (gps_registry_last_write_wins c2Payloads (by decide)).2 (.str "d1")⟩

theorem mapGet_deliverAll (vs : List (Nat × List Msg)) (bs : List Broadcast)
    (v : Nat) :
    mapGet (deliverAll vs bs) v =
      (mapGet vs v).map fun l => l ++ bs.map Msg.push := by
  induction vs with
  | nil => simp [deliverAll, mapGet]
  | cons hd tl ih =>
    obtain ⟨w, l⟩ := hd
    simp only [deliverAll] at ih ⊢
    by_cases hw : w = v <;> simp [mapGet, hw, ih]

theorem sysStep_server (σ : SysState) (e : Event) :
    (sysStep σ e).server = serverStep σ.server e := by
  cases e <;> rfl

theorem sysRun_inbox (es : List Event) (σ : SysState) (v : Nat)
    (l : List Msg) (hv : mapGet σ.viewers v = some l) :
    mapGet (sysRun σ es).viewers v =
      some (l ++ (runOutputs σ.server es).map Msg.push) := by
  induction es generalizing σ l with
  | nil => simpa [sysRun, runOutputs] using hv
  | cons e rest ih =>
    have hstep : mapGet (sysStep σ e).viewers v =
        some (l ++ (stepOutputs σ.server e).map Msg.push) := by
      cases e with
      | viewerConnect w =>
        show mapGet (σ.viewers ++ [(w, _)]) v = _
        rw [mapGet_append, hv]
        simp [stepOutputs]
      | busGPS p =>
        show mapGet (deliverAll σ.viewers _) v = _
        rw [mapGet_deliverAll, hv]
        rfl
      | busRFID p =>
        show mapGet (deliverAll σ.viewers _) v = _
        rw [mapGet_deliverAll, hv]
        rfl
      | busConnect cfg => simpa [sysStep, stepOutputs] using hv
      | busClose cid hdl => simpa [sysStep, stepOutputs] using hv
    have hrun : sysRun σ (e :: rest) = sysRun (sysStep σ e) rest := rfl
    rw [hrun, ih (sysStep σ e) _ hstep, sysStep_server]
    simp only [runOutputs, List.map_append, List.append_assoc]

/-- C6: A viewer connecting after any event prefix `tr1` has been applied
(and whose socket id is fresh) immediately receives the `initial_state`
snapshot reflecting exactly the state after `tr1` (all devices, all
scans), followed by exactly the broadcasts generated by the events applied
after its connection, each delivered once and in application order — no
duplicates, no gaps. -/
theorem viewer_snapshot_then_exact_stream (tr1 tr2 : List Event) (v : Nat)
    (hfresh : mapGet (sysRun sys0 tr1).viewers v = none) :
    mapGet (sysRun sys0 (tr1 ++ Event.viewerConnect v :: tr2)).viewers v =
      some (Msg.initial
              ((sysRun sys0 tr1).server.devices.map Prod.snd)
              (sysRun sys0 tr1).server.rfidScans
            :: (runOutputs (sysRun sys0 tr1).server tr2).map Msg.push) := by
  have hsplit : sysRun sys0 (tr1 ++ Event.viewerConnect v :: tr2) =
      sysRun (sysStep (sysRun sys0 tr1) (Event.viewerConnect v)) tr2 := by
    simp [sysRun, List.foldl_append]
  have hconn : mapGet
      (sysStep (sysRun sys0 tr1) (Event.viewerConnect v)).viewers v =
      some [Msg.initial ((sysRun sys0 tr1).server.devices.map Prod.snd)
              (sysRun sys0 tr1).server.rfidScans] := by
    show mapGet ((sysRun sys0 tr1).viewers ++ [(v, _)]) v = _
    rw [mapGet_append, hfresh]
    simp [mapGet]
  rw [hsplit, sysRun_inbox tr2 _ v _ hconn, sysStep_server]
  simp [serverStep]

theorem viewer_snapshot_then_exact_stream_witness :
    mapGet (sysRun sys0
        (viewerTr1 ++ Event.viewerConnect 7 :: viewerTr2)).viewers 7 =
      some (Msg.initial
              ((sysRun sys0 viewerTr1).server.devices.map Prod.snd)
              (sysRun sys0 viewerTr1).server.rfidScans
            :: (runOutputs (sysRun sys0 viewerTr1).server viewerTr2).map
                Msg.push) :=
  viewer_snapshot_then_exact_stream viewerTr1 viewerTr2 7 (by decide)

/-- C7: Bus connection lifecycle operations (`connect_mqtt` requests and
transport-level closes, in any sequence) never change the registry: the
device map and the scan log after the sequence equal those before it. -/
theorem lifecycle_preserves_registry (es : List Event) (s : ServerState)
    (h : ∀ e ∈ es, isLifecycleEvent e = true) :
    (runServer s es).devices = s.devices ∧
    (runServer s es).rfidScans = s.rfidScans := by
  induction es generalizing s with
  | nil => exact ⟨rfl, rfl⟩
  | cons e rest ih =>
    have he := h e (List.mem_cons_self e rest)
    have hrest : ∀ x ∈ rest, isLifecycleEvent x = true :=
      fun x hx => h x (List.mem_cons_of_mem e hx)
    have hstep : (serverStep s e).devices = s.devices ∧
        (serverStep s e).rfidScans = s.rfidScans := by
      cases e with
      | busConnect cfg => exact ⟨rfl, rfl⟩
      | busClose cid hdl => exact ⟨rfl, rfl⟩
      | viewerConnect w => exact ⟨rfl, rfl⟩
      | busGPS p => simp [isLifecycleEvent] at he
      | busRFID p => simp [isLifecycleEvent] at he
    obtain ⟨h1, h2⟩ := ih (serverStep s e) hrest
    have hrun : runServer s (e :: rest) = runServer (serverStep s e) rest :=
      rfl
    rw [hrun]
    exact ⟨h1.trans hstep.1, h2.trans hstep.2⟩

theorem lifecycle_preserves_registry_witness :
    (runServer initState [Event.busConnect cfgA,
        Event.busClose (.str "alpha") 0, Event.busConnect cfgB]).devices =
      initState.devices ∧
    (runServer initState [Event.busConnect cfgA,
        Event.busClose (.str "alpha") 0, Event.busConnect cfgB]).rfidScans =
      initState.rfidScans :=
  lifecycle_preserves_registry _ _ (by decide)

end RaidTracker
